import Mathlib

/-!
Shallow embedding of the turn-taking and interruption logic of the
Layercode JS SDK client (class LayercodeClient).

Every event handler of the client is translated into a pure Lean
function.  Side effects (console logging, WebSocket sends, host
callback invocations, audio player calls) are reified as an ordered
list of Action values returned by the handler, and the mutable
instance fields a handler reads or writes are passed as an explicit
state record.

The repository contains two revisions of the client and both are
embedded where they differ:
- the revision at src/index.ts, whose turn.start arm gates the
  interruption on canInterrupt and whose interruptible speech-start
  handler pauses playback and sets a vadPausedPlayer flag; its
  embeddings carry the suffix Idx;
- the later revision (the one with the audio pre-roll buffer, the
  readySent guard, the playback-offset interruption message, the
  amplitude-fallback VAD and the richer disconnect); its embeddings
  carry plain names.
-/

namespace LayercodeClient

/-- Console log severities used by the client: console.log, console.debug,
console.warn and console.error calls. -/
inductive Severity
  | log
  | debug
  | warn
  | error
deriving DecidableEq

/-- Client-to-server protocol messages (the ClientMessage union of
src/interfaces.ts).  Rational numbers stand for the JS number offsets. -/
inductive ClientMsg
  | clientAudio (content : String)
  | triggerTurnStart
  | triggerTurnEnd
  | replayFinished
  | audioInterrupted (playback_offset : ℚ) (turn_id : String) (playback_offset_ms : ℚ)
  | vadEvents (event : String)
  | clientReady
deriving DecidableEq

/-- Observable side effects of a handler, recorded in program order.
wsSendCall is an invocation of the private method named wsSend
(which itself may or may not transmit); netSend is the actual
this.ws.send call; enqueue would be a buffering of an outbound
message for later delivery (the client has no such queue, so no
handler ever produces it); warnMissing is the console.warn emitted by
the interruption routine, carrying the two booleans it logs. -/
inductive Action
  | consoleLog (sev : Severity) (text : String)
  | wsSendCall (m : ClientMsg)
  | netSend (m : ClientMsg)
  | enqueue (m : ClientMsg)
  | onError
  | onDataMessage
  | onDisconnect
  | onConnect
  | onUserIsSpeakingChange (b : Bool)
  | setStatus (s : String)
  | playerAdd (content : String) (turnId : Option String)
  | playerPause
  | clearInterruptedTracks (keep : List String)
  | interruptCall
  | vadPause
  | vadDestroy
  | recorderQuit
  | playerDisconnect
  | wsClose
  | setupAmplitudeBasedVAD
  | warnMissing (hasOffsetData hasTurnId : Bool)
deriving DecidableEq

/-- JavaScript truthiness of a nullable string: null, undefined and the
empty string are falsy. -/
def jsTruthy : Option String → Bool
  | none => false
  | some s => s != ""

/-- A parsed inbound channel frame: a JSON object with an optional type
tag and the payload fields the dispatcher inspects.  An absent or null
type is modelled as none. -/
structure InboundMsg where
  type? : Option String
  role? : Option String := none
  content : String := ""
  turn_id? : Option String := none
deriving DecidableEq

/-- The mutable fields the later-revision dispatcher reads or writes. -/
structure DispatchState where
  pushToTalkEnabled : Bool
  currentTurnId : Option String
deriving DecidableEq

/-- The message dispatcher of the later revision: the switch on
message.type inside handleWebSocketMessage, reached after the frame
parsed as JSON.  The leading console.log of the raw message is emitted
for every type other than response.audio; the default arm logs at
error severity.  Invoking the interruption routine is recorded as the
interruptCall action. -/
def handleServerMessage (st : DispatchState) (m : InboundMsg) : DispatchState × List Action :=
  let pre : List Action :=
    if m.type? = some "response.audio" then [] else [.consoleLog .log "received ws msg:"]
  if m.type? = some "turn.start" then
    let logs : List Action :=
      [.consoleLog .log "received turn.start from server", .consoleLog .log "turn.start message body"]
    if m.role? = some "assistant" then
      (st, pre ++ logs ++
        [.consoleLog .log "Assistant turn started, will track new turn ID from audio/text"])
    else if m.role? = some "user" ∧ st.pushToTalkEnabled = false then
      (st, pre ++ logs ++
        [.consoleLog .log "interrupting assistant audio, as user turn has started and pushToTalkEnabled is false",
         .interruptCall])
    else
      (st, pre ++ logs)
  else if m.type? = some "response.audio" then
    let addAct : List Action := [.playerAdd m.content m.turn_id?]
    if jsTruthy st.currentTurnId = false ∨ st.currentTurnId ≠ m.turn_id? then
      ({ st with currentTurnId := m.turn_id? },
       pre ++ addAct ++
         [.consoleLog .log "Setting current turn ID",
          .clearInterruptedTracks
            (match m.turn_id? with
             | some t => if t = "" then [] else [t]
             | none => [])])
    else
      (st, pre ++ addAct)
  else if m.type? = some "response.text" then
    if jsTruthy st.currentTurnId = false then
      ({ st with currentTurnId := m.turn_id? },
       pre ++ [.consoleLog .log "Setting current turn ID from text message"])
    else
      (st, pre)
  else if m.type? = some "response.data" then
    (st, pre ++ [.consoleLog .log "received response.data", .onDataMessage])
  else
    (st, pre ++ [.consoleLog .error "Unknown message type received:"])

/-- Dispatcher configuration of the src/index.ts revision.  Its switch
arms mutate no instance fields, so the state is just the two
configuration flags the turn.start arm reads. -/
structure IdxState where
  pushToTalkEnabled : Bool
  canInterrupt : Bool
deriving DecidableEq

/-- The message dispatcher of the src/index.ts revision (lines 283 to
317): turn.start invokes the interruption routine only when role is
user, push-to-talk is disabled and canInterrupt holds; there is no
response.text arm, and the default arm logs at error severity. -/
def handleServerMessageIdx (st : IdxState) (m : InboundMsg) : IdxState × List Action :=
  let pre : List Action :=
    if m.type? = some "response.audio" then [] else [.consoleLog .log "received ws msg:"]
  if m.type? = some "turn.start" then
    let logs : List Action :=
      [.consoleLog .log "received turn.start from server", .consoleLog .log "turn.start message body"]
    if m.role? = some "user" ∧ st.pushToTalkEnabled = false ∧ st.canInterrupt = true then
      (st, pre ++ logs ++
        [.consoleLog .log "interrupting assistant audio, as user turn has started and pushToTalkEnabled is false",
         .interruptCall])
    else
      (st, pre ++ logs)
  else if m.type? = some "response.audio" then
    (st, pre ++ [.playerAdd m.content m.turn_id?])
  else if m.type? = some "response.data" then
    (st, pre ++ [.consoleLog .log "received response.data", .onDataMessage])
  else
    (st, pre ++ [.consoleLog .error "Unknown message type received:"])

/-- Does an action list contain a console report at the given severity? -/
def hasLogAt (sev : Severity) : List Action → Bool
  | [] => false
  | .consoleLog s _ :: rest => if s = sev then true else hasLogAt sev rest
  | _ :: rest => hasLogAt sev rest

/-- Does an action list contain a connection-status change? -/
def hasSetStatus : List Action → Bool
  | [] => false
  | .setStatus _ :: _ => true
  | _ :: rest => hasSetStatus rest

/-- Result of the interruptible-profile onSpeechStart handler of the
src/index.ts revision: the two instance fields it writes plus the ordered
external actions it performs. -/
structure SpeechStartResult where
  userIsSpeaking : Bool
  vadPausedPlayer : Bool
  actions : List Action
deriving DecidableEq

/-- The onSpeechStart callback of the interruptible VAD profile in the
src/index.ts revision (lines 177 to 192): if the player is playing it is
paused and vadPausedPlayer is set before userIsSpeaking is set and the
vad_start protocol message is emitted. -/
def onSpeechStartInterruptibleIdx (isPlaying vadPausedPlayer0 : Bool) : SpeechStartResult :=
  if isPlaying then
    { userIsSpeaking := true
      vadPausedPlayer := true
      actions :=
        [.consoleLog .log "onSpeechStart: WavPlayer is playing, pausing it.",
         .playerPause,
         .consoleLog .log "onSpeechStart: sending vad_start",
         .wsSendCall (.vadEvents "vad_start")] }
  else
    { userIsSpeaking := true
      vadPausedPlayer := vadPausedPlayer0
      actions :=
        [.consoleLog .log "onSpeechStart: WavPlayer is not playing, VAD will not pause.",
         .consoleLog .log "onSpeechStart: sending vad_start",
         .wsSendCall (.vadEvents "vad_start")] }

/-- Result of the interruptible-profile onSpeechStart handler of the
later revision: the two instance fields it writes plus its ordered
actions.  That closure reads no playback state and the revision defines
no vadPausedPlayer flag, so the result has no playback input and no
pause flag. -/
structure SpeechStart003Result where
  userIsSpeaking : Bool
  endUserTurn : Bool
  actions : List Action
deriving DecidableEq

/-- The onSpeechStart callback of the interruptible VAD profile in the
later revision (the canInterrupt branch of initializeVAD): it logs,
issues the vad_start send, sets userIsSpeaking, fires the
speaking-change callback, clears endUserTurn and logs the updated
state; it performs no playback pause. -/
def onSpeechStartInterruptible : SpeechStart003Result :=
  { userIsSpeaking := true
    endUserTurn := false
    actions :=
      [.consoleLog .log "onSpeechStart: sending vad_start",
       .wsSendCall (.vadEvents "vad_start"),
       .onUserIsSpeakingChange true,
       .consoleLog .log "onSpeechStart: State after update"] }

/-- The asynchronous offset answer of WavStreamPlayer.interrupt: null when
no stream is active, otherwise the sample offset and the current playback
time in seconds. -/
structure OffsetData where
  trackId : Option String
  offset : ℚ
  currentTime : ℚ
deriving DecidableEq

/-- The interruption routine of the later revision
(clientInterruptAssistantReplay): given the offset answer of the player
and the tracked current turn id, either send exactly one
trigger.response.audio.interrupted message (offset in milliseconds is the
seconds value times 1000, repeated inside the interruption context) or,
when the offset answer is null or the turn id is null or empty (falsy),
emit a single console.warn carrying the two availability booleans. -/
def clientInterruptAssistantReplay : Option OffsetData → Option String → List Action
  | some d, some tid =>
      if tid = "" then
        [.warnMissing true false]
      else
        [.wsSendCall (.audioInterrupted (d.currentTime * 1000) tid (d.currentTime * 1000))]
  | some _, none => [.warnMissing true false]
  | none, ctid => [.warnMissing false (jsTruthy ctid)]

/-- Timeout constant of the VAD model load guard (setTimeout delay in
initializeVAD). -/
def VAD_MODEL_TIMEOUT_MS : ℕ := 2000

/-- The amplitude threshold of the fallback detector. -/
def AMPLITUDE_THRESHOLD : ℚ := 1 / 100

/-- Number of consecutive low-amplitude frames before the fallback
detector declares silence. -/
def SILENCE_FRAMES_THRESHOLD : ℕ := 30

/-- initializeVAD returns immediately in push-to-talk mode; otherwise it
schedules the model-load timeout with a 2000 millisecond delay.  The
returned value is the scheduled delay, if any. -/
def initializeVADTimeout (pushToTalkEnabled : Bool) : Option ℕ :=
  if pushToTalkEnabled then none else some VAD_MODEL_TIMEOUT_MS

/-- The body of the scheduled timeout in the later revision: the
userIsSpeaking value it leaves behind, paired with its ordered actions
(log, warn, send vad_model_failed, fire the speaking-change callback,
install the amplitude-based fallback). -/
def vadTimeoutHandler : Bool × List Action :=
  (false,
   [.consoleLog .log "silero vad model timeout",
    .consoleLog .warn "VAD model failed to load - falling back to amplitude-based detection",
    .wsSendCall (.vadEvents "vad_model_failed"),
    .onUserIsSpeakingChange false,
    .setupAmplitudeBasedVAD])

/-- State of the amplitude-based fallback detector: the closure-local
speaking flag and silence counter of setupAmplitudeBasedVAD, plus the
userIsSpeaking instance field it mirrors. -/
structure AmpState where
  isSpeakingByAmplitude : Bool
  silenceFrames : ℕ
  userIsSpeaking : Bool
deriving DecidableEq

/-- One amplitude-monitoring callback of the fallback detector: above the
threshold the silence counter resets and a speech start is declared when
not already speaking; at or below the threshold the counter increments
and, when the detector was speaking and the counter reaches 30, a speech
end is declared. -/
def ampVadStep (s : AmpState) (amplitude : ℚ) : AmpState × List Action :=
  if AMPLITUDE_THRESHOLD < amplitude then
    if s.isSpeakingByAmplitude then
      ({ s with silenceFrames := 0 }, [])
    else
      ({ isSpeakingByAmplitude := true, silenceFrames := 0, userIsSpeaking := true },
       [.onUserIsSpeakingChange true, .wsSendCall (.vadEvents "vad_start")])
  else
    let sf := s.silenceFrames + 1
    if s.isSpeakingByAmplitude ∧ SILENCE_FRAMES_THRESHOLD ≤ sf then
      ({ isSpeakingByAmplitude := false, silenceFrames := sf, userIsSpeaking := false },
       [.onUserIsSpeakingChange false, .wsSendCall (.vadEvents "vad_end")])
    else
      ({ s with silenceFrames := sf }, [])

/-- Run of the fallback detector over a sequence of amplitude frames. -/
def ampVadRun : AmpState → List ℚ → AmpState × List Action
  | s, [] => (s, [])
  | s, a :: rest =>
      let r1 := ampVadStep s a
      let r2 := ampVadRun r1.1 rest
      (r2.1, r1.2 ++ r2.2)

/-- The mutable fields read or written by handleDataAvailable in the
later revision. -/
structure GateState where
  pushToTalkEnabled : Bool
  pushToTalkActive : Bool
  userIsSpeaking : Bool
  audioBuffer : List String
deriving DecidableEq

/-- The capture callback of the later revision (handleDataAvailable):
decide sendAudio from the push-to-talk flags or userIsSpeaking; when
sending, first flush the buffered chunks oldest-first as individual
client.audio messages and then send the current chunk, clearing the
buffer; when not sending, push the chunk and drop the oldest entry once
the buffer exceeds ten entries. -/
def handleDataAvailable (st : GateState) (base64 : String) : GateState × List Action :=
  let sendAudio := if st.pushToTalkEnabled then st.pushToTalkActive else st.userIsSpeaking
  if sendAudio then
    let flushLog : List Action :=
      if 0 < st.audioBuffer.length then [.consoleLog .log "Sending buffered audio chunks"] else []
    let flushSends := st.audioBuffer.map fun b => Action.wsSendCall (.clientAudio b)
    ({ st with audioBuffer := [] },
     flushLog ++ flushSends ++ [.wsSendCall (.clientAudio base64)])
  else
    let pushed := st.audioBuffer ++ [base64]
    let bounded := if 10 < pushed.length then pushed.drop 1 else pushed
    ({ st with audioBuffer := bounded }, [])

/-- The audio chunk contents carried by the wsSend invocations of an
action list, in order. -/
def sentAudioContents (acts : List Action) : List String :=
  acts.filterMap fun a =>
    match a with
    | .wsSendCall (.clientAudio c) => some c
    | _ => none

/-- Ready states of a browser WebSocket. -/
inductive WsReadyState
  | connecting
  | opened
  | closing
  | closed
deriving DecidableEq

/-- The outbound send path (the private method wsSend, identical in both
revisions): every non-audio message is first logged, then the message is
transmitted only if a socket exists and its ready state is OPEN; the
else branch is empty, so a message produced while the channel is not
open is dropped without a queue, an error report or a callback. -/
def wsSend (ws : Option WsReadyState) (m : ClientMsg) : List Action :=
  let pre : List Action :=
    match m with
    | .clientAudio _ => []
    | _ => [.consoleLog .log "sent ws msg:"]
  if ws = some .opened then pre ++ [.netSend m] else pre

/-- The fields guarding the one-time client.ready notice in the later
revision. -/
structure ReadyState where
  recorderStarted : Bool
  wsOpen : Bool
  readySent : Bool
deriving DecidableEq

/-- sendReadyIfNeeded of the later revision: send client.ready and set
the sent flag only when the recorder has started, the socket is open and
the notice has not been sent yet. -/
def sendReadyIfNeeded (st : ReadyState) : ReadyState × List Action :=
  if st.recorderStarted = true ∧ st.wsOpen = true ∧ st.readySent = false then
    ({ st with readySent := true }, [.wsSendCall .clientReady])
  else
    (st, [])

/-- Events touching the ready guard during connect: the recorder finishes
starting, the socket open handler fires, or sendReadyIfNeeded is invoked
(it is invoked from both completion paths). -/
inductive ReadyEvent
  | recorderReady
  | wsOpened
  | callSendReady
deriving DecidableEq

/-- One ready-guard event. -/
def readyStep (st : ReadyState) : ReadyEvent → ReadyState × List Action
  | .recorderReady => ({ st with recorderStarted := true }, [])
  | .wsOpened => ({ st with wsOpen := true }, [])
  | .callSendReady => sendReadyIfNeeded st

/-- Run of the ready guard over a sequence of events. -/
def readyRun (st : ReadyState) : List ReadyEvent → ReadyState × List Action
  | [] => (st, [])
  | e :: rest =>
      let r1 := readyStep st e
      let r2 := readyRun r1.1 rest
      (r2.1, r1.2 ++ r2.2)

/-- The guard state at the start of a connection. -/
def initReady : ReadyState := ⟨false, false, false⟩

/-- Number of client.ready send invocations in an action list. -/
def countClientReady (l : List Action) : ℕ :=
  l.countP fun a => a == .wsSendCall .clientReady

/-- The resources disconnect of the later revision touches: whether a
VAD instance exists, whether a WebSocket reference exists, and the
tracked turn id. -/
structure DiscState where
  vad : Bool
  ws : Bool
  currentTurnId : Option String
deriving DecidableEq

/-- disconnect of the later revision: tear down the VAD when present,
stop recorder and player, reset turn tracking, then, whenever the
WebSocket reference is non-null, close it, set the status and fire the
disconnect callback.  The WebSocket reference itself is never cleared. -/
def disconnectClient (st : DiscState) : DiscState × List Action :=
  let vadActs : List Action := if st.vad then [.vadPause, .vadDestroy] else []
  let baseActs : List Action := [.recorderQuit, .playerDisconnect]
  let wsActs : List Action :=
    if st.ws then [.wsClose, .setStatus "disconnected", .onDisconnect] else []
  ({ vad := false, ws := st.ws, currentTurnId := none }, vadActs ++ baseActs ++ wsActs)

/-- Number of disconnect callback invocations in an action list. -/
def countOnDisconnect (l : List Action) : ℕ :=
  l.countP fun a => a == .onDisconnect

/-- Claim C1.  The claim asks for a diagnostic-only classification of
frames whose type is absent or unknown.  The code in both revisions of
the dispatcher instead logs the default arm at error severity and emits
no diagnostic-level report at all, contradicting the unit tests and the
fix description shipped in the repository.  This theorem evaluates the
dispatcher at the failing inputs: an unknown type
speech_send_tracking and a frame without type both produce an
error-severity log and no debug-severity log (while, as the claim also
says, the error callback stays uninvoked and the status unchanged). -/
theorem C1_unknown_type_logged_as_error :
    (hasLogAt .error (handleServerMessage ⟨false, none⟩
        ⟨some "speech_send_tracking", none, "", none⟩).2 = true
      ∧ hasLogAt .debug (handleServerMessage ⟨false, none⟩
        ⟨some "speech_send_tracking", none, "", none⟩).2 = false
      ∧ Action.onError ∉ (handleServerMessage ⟨false, none⟩
        ⟨some "speech_send_tracking", none, "", none⟩).2
      ∧ hasSetStatus (handleServerMessage ⟨false, none⟩
        ⟨some "speech_send_tracking", none, "", none⟩).2 = false)
    ∧ (hasLogAt .error (handleServerMessage ⟨false, none⟩ ⟨none, none, "", none⟩).2 = true
      ∧ hasLogAt .debug (handleServerMessage ⟨false, none⟩ ⟨none, none, "", none⟩).2 = false)
    ∧ hasLogAt .error (handleServerMessageIdx ⟨false, false⟩
        ⟨some "speech_send_tracking", none, "", none⟩).2 = true := by
  decide

/-- Counterexample to claim C4 as stated: the turn.start arm of the
later-revision dispatcher invokes the interruption routine at a concrete
user turn.start with push-to-talk disabled, and that invocation is
independent of whether interruption is permitted (the handler reads
no canInterrupt value at all), so the claimed only-if-canInterrupt
direction is false: for a client configured with canInterrupt false the
interrupt still fires. -/
theorem C4_counterexample :
    Action.interruptCall ∈
      (handleServerMessage ⟨false, none⟩ ⟨some "turn.start", some "user", "", none⟩).2
    ∧ ¬ (∀ canInterrupt : Bool,
          Action.interruptCall ∈
            (handleServerMessage ⟨false, none⟩ ⟨some "turn.start", some "user", "", none⟩).2
          → canInterrupt = true) := by
  decide

/-- Claim C4, amended: for a turn.start frame, the dispatcher state is
unchanged and an assistant role triggers no interruption in either
revision; in the later revision the interruption routine is invoked
exactly when the role is user and push-to-talk is disabled, with no
canInterrupt condition, while the earlier src/index.ts revision
additionally requires canInterrupt. -/
theorem C4_turn_start_gate_amended (st : DispatchState) (stIdx : IdxState) (m : InboundMsg)
    (h : m.type? = some "turn.start") :
    (handleServerMessage st m).1 = st
    ∧ (m.role? = some "assistant" →
        Action.interruptCall ∉ (handleServerMessage st m).2
        ∧ Action.interruptCall ∉ (handleServerMessageIdx stIdx m).2)
    ∧ (Action.interruptCall ∈ (handleServerMessage st m).2 ↔
        m.role? = some "user" ∧ st.pushToTalkEnabled = false)
    ∧ (Action.interruptCall ∈ (handleServerMessageIdx stIdx m).2 ↔
        m.role? = some "user" ∧ stIdx.pushToTalkEnabled = false ∧ stIdx.canInterrupt = true) := by
  refine ⟨?_, ?_, ?_, ?_⟩
  · by_cases ha : m.role? = some "assistant"
    · simp [handleServerMessage, h, ha]
    · by_cases hu : m.role? = some "user" ∧ st.pushToTalkEnabled = false
      · simp [handleServerMessage, h, ha, hu]
      · simp [handleServerMessage, h, ha, hu]
  · intro ha
    constructor
    · simp [handleServerMessage, h, ha]
    · simp [handleServerMessageIdx, h, ha]
  · by_cases ha : m.role? = some "assistant"
    · simp [handleServerMessage, h, ha]
    · by_cases hu : m.role? = some "user" ∧ st.pushToTalkEnabled = false
      · simp [handleServerMessage, h, ha, hu]
      · simp [handleServerMessage, h, ha, hu]
  · by_cases hc : m.role? = some "user" ∧ stIdx.pushToTalkEnabled = false ∧ stIdx.canInterrupt = true
    · simp [handleServerMessageIdx, h, hc, hc.1]
    · simp [handleServerMessageIdx, h, hc]

/-- Witness for the amended C4 at a concrete user turn.start: the later
dispatcher interrupts without any canInterrupt requirement while the
earlier dispatcher with canInterrupt false does not. -/
theorem C4_turn_start_gate_amended_witness :
    Action.interruptCall ∈
      (handleServerMessage ⟨false, none⟩ ⟨some "turn.start", some "user", "", none⟩).2
    ∧ Action.interruptCall ∉
      (handleServerMessageIdx ⟨false, false⟩ ⟨some "turn.start", some "user", "", none⟩).2 := by
  constructor
  · exact (C4_turn_start_gate_amended ⟨false, none⟩ ⟨false, false⟩
      ⟨some "turn.start", some "user", "", none⟩ rfl).2.2.1.mpr ⟨rfl, rfl⟩
  · intro hmem
    have h := (C4_turn_start_gate_amended ⟨false, none⟩ ⟨false, false⟩
      ⟨some "turn.start", some "user", "", none⟩ rfl).2.2.2.mp hmem
    exact absurd h.2.2 (by decide)

/-- Counterexample to claim C7 as stated: the interruptible speech-start
handler of the later revision issues the vad_start send without any
playback pause, whatever the playback state (the handler takes no
playback input and the revision has no pause flag), so pause-before-send
fails there. -/
theorem C7_counterexample :
    Action.wsSendCall (.vadEvents "vad_start") ∈ onSpeechStartInterruptible.actions
    ∧ Action.playerPause ∉ onSpeechStartInterruptible.actions := by
  decide

/-- Claim C7, amended: the pause ordering holds of the earlier
src/index.ts revision: in its interruptible profile, a speech-start
event while playback is active pauses the player before the vad_start
message send is issued, and the vadPausedPlayer flag becomes true
(whereas the later revision sends vad_start without pausing, see the
counterexample). -/
theorem C7_pause_before_vad_start (isPlaying paused0 : Bool) (h : isPlaying = true) :
    (onSpeechStartInterruptibleIdx isPlaying paused0).vadPausedPlayer = true
    ∧ Action.playerPause ∈ (onSpeechStartInterruptibleIdx isPlaying paused0).actions
    ∧ Action.wsSendCall (.vadEvents "vad_start")
        ∈ (onSpeechStartInterruptibleIdx isPlaying paused0).actions
    ∧ (onSpeechStartInterruptibleIdx isPlaying paused0).actions.indexOf Action.playerPause
        < (onSpeechStartInterruptibleIdx isPlaying paused0).actions.indexOf
            (Action.wsSendCall (.vadEvents "vad_start")) := by
  subst h
  cases paused0 <;> decide

/-- Witness for C7 at the concrete playing state. -/
theorem C7_pause_before_vad_start_witness :
    (onSpeechStartInterruptibleIdx true false).vadPausedPlayer = true
    ∧ (onSpeechStartInterruptibleIdx true false).actions.indexOf Action.playerPause
        < (onSpeechStartInterruptibleIdx true false).actions.indexOf
            (Action.wsSendCall (.vadEvents "vad_start")) := by
  have h := C7_pause_before_vad_start true false rfl
  exact ⟨h.1, h.2.2.2⟩

/-- Claim C10: when the socket is null or not OPEN, the outbound send
path performs no transmission, queues nothing, produces no error-level
report, invokes no callback and changes no status. -/
theorem C10_silent_drop (ws : Option WsReadyState) (m : ClientMsg)
    (h : ws ≠ some .opened) :
    (∀ m2, Action.netSend m2 ∉ wsSend ws m)
    ∧ (∀ m2, Action.enqueue m2 ∉ wsSend ws m)
    ∧ hasLogAt .error (wsSend ws m) = false
    ∧ Action.onError ∉ wsSend ws m
    ∧ Action.onDataMessage ∉ wsSend ws m
    ∧ Action.onDisconnect ∉ wsSend ws m
    ∧ hasSetStatus (wsSend ws m) = false := by
  unfold wsSend
  rw [if_neg h]
  cases m <;> simp [hasLogAt, hasSetStatus]

/-- Witness for C10 at a null socket and a client.ready message. -/
theorem C10_silent_drop_witness :
    Action.netSend .clientReady ∉ wsSend none .clientReady
    ∧ hasLogAt .error (wsSend none .clientReady) = false := by
  have h := C10_silent_drop none .clientReady (by simp)
  exact ⟨h.1 .clientReady, h.2.2.1⟩

/-- Flushing the buffer sends exactly its contents, in order. -/
theorem sentAudioContents_flushSends (l : List String) :
    sentAudioContents (l.map fun b => Action.wsSendCall (.clientAudio b)) = l := by
  induction l with
  | nil => rfl
  | cons b t ih => simpa [sentAudioContents, List.filterMap_cons] using ih

/-- sentAudioContents distributes over concatenation. -/
theorem sentAudioContents_append (l1 l2 : List Action) :
    sentAudioContents (l1 ++ l2) = sentAudioContents l1 ++ sentAudioContents l2 := by
  simp [sentAudioContents]

/-- The empty action list carries no audio. -/
theorem sentAudioContents_nil : sentAudioContents [] = [] := rfl

/-- A console log carries no audio. -/
theorem sentAudioContents_log (sev : Severity) (t : String) :
    sentAudioContents [.consoleLog sev t] = [] := rfl

/-- A single audio send carries exactly its chunk. -/
theorem sentAudioContents_single (c : String) :
    sentAudioContents [.wsSendCall (.clientAudio c)] = [c] := rfl

/-- Characterization of the capture callback when the send decision is
true: buffered chunks then the current chunk go out and the buffer is
cleared. -/
theorem handleDataAvailable_send (st : GateState) (b : String)
    (h : (if st.pushToTalkEnabled then st.pushToTalkActive else st.userIsSpeaking) = true) :
    (handleDataAvailable st b).1.audioBuffer = []
    ∧ sentAudioContents (handleDataAvailable st b).2 = st.audioBuffer ++ [b] := by
  unfold handleDataAvailable
  rw [h]
  refine ⟨by simp, ?_⟩
  by_cases hb : 0 < st.audioBuffer.length <;>
    simp only [hb, if_true, if_false, reduceIte, sentAudioContents_append,
      sentAudioContents_flushSends, sentAudioContents_log, sentAudioContents_single,
      sentAudioContents_nil, List.nil_append, List.append_nil]

/-- Characterization of the capture callback when the send decision is
false: nothing goes out and the chunk is buffered with at most one
oldest entry evicted. -/
theorem handleDataAvailable_buffer (st : GateState) (b : String)
    (h : (if st.pushToTalkEnabled then st.pushToTalkActive else st.userIsSpeaking) = false) :
    sentAudioContents (handleDataAvailable st b).2 = []
    ∧ (handleDataAvailable st b).1.audioBuffer =
        (if 10 < (st.audioBuffer ++ [b]).length
         then (st.audioBuffer ++ [b]).drop 1
         else st.audioBuffer ++ [b]) := by
  unfold handleDataAvailable
  rw [h]
  exact ⟨by simp [sentAudioContents], by simp⟩

/-- Claim C2: the send decision of the capture callback is the
push-to-talk flag when push-to-talk is enabled and userIsSpeaking
otherwise; on a true decision the buffered chunks are transmitted
oldest-first followed by the current chunk and the buffer is emptied; on
a false decision nothing is transmitted and the chunk is appended with
the oldest entry evicted beyond capacity ten. -/
theorem C2_audio_gate_decision (st : GateState) (b : String) :
    ((if st.pushToTalkEnabled then st.pushToTalkActive else st.userIsSpeaking) = true →
      sentAudioContents (handleDataAvailable st b).2 = st.audioBuffer ++ [b]
      ∧ (handleDataAvailable st b).1.audioBuffer = [])
    ∧ ((if st.pushToTalkEnabled then st.pushToTalkActive else st.userIsSpeaking) = false →
      sentAudioContents (handleDataAvailable st b).2 = []
      ∧ (handleDataAvailable st b).1.audioBuffer =
          (if 10 < (st.audioBuffer ++ [b]).length
           then (st.audioBuffer ++ [b]).drop 1
           else st.audioBuffer ++ [b])) := by
  constructor
  · intro h
    exact ⟨(handleDataAvailable_send st b h).2, (handleDataAvailable_send st b h).1⟩
  · intro h
    exact handleDataAvailable_buffer st b h

/-- Witness for C2: a flush in automatic mode while speaking, and a
buffering step at full capacity. -/
theorem C2_audio_gate_decision_witness :
    (sentAudioContents (handleDataAvailable ⟨false, false, true, ["a", "b"]⟩ "c").2
        = ["a", "b", "c"]
      ∧ (handleDataAvailable ⟨false, false, true, ["a", "b"]⟩ "c").1.audioBuffer = [])
    ∧ (handleDataAvailable ⟨false, false, false,
        ["0", "1", "2", "3", "4", "5", "6", "7", "8", "9"]⟩ "x").1.audioBuffer
        = ["1", "2", "3", "4", "5", "6", "7", "8", "9", "x"] := by
  constructor
  · exact (C2_audio_gate_decision ⟨false, false, true, ["a", "b"]⟩ "c").1 rfl
  · have h := (C2_audio_gate_decision ⟨false, false, false,
      ["0", "1", "2", "3", "4", "5", "6", "7", "8", "9"]⟩ "x").2 rfl
    rw [h.2]
    decide

/-- Claim C3: one capture-callback step preserves the ten-entry bound of
the pre-roll buffer; a flush empties it; and chunks are transmitted in
capture order, buffered chunks first and the current chunk last. -/
theorem C3_buffer_invariant (st : GateState) (b : String)
    (h : st.audioBuffer.length ≤ 10) :
    (handleDataAvailable st b).1.audioBuffer.length ≤ 10
    ∧ ((if st.pushToTalkEnabled then st.pushToTalkActive else st.userIsSpeaking) = true →
        (handleDataAvailable st b).1.audioBuffer = []
        ∧ sentAudioContents (handleDataAvailable st b).2 = st.audioBuffer ++ [b]) := by
  by_cases hd : (if st.pushToTalkEnabled then st.pushToTalkActive else st.userIsSpeaking) = true
  · refine ⟨?_, fun _ => handleDataAvailable_send st b hd⟩
    rw [(handleDataAvailable_send st b hd).1]
    simp
  · have hd' : (if st.pushToTalkEnabled then st.pushToTalkActive else st.userIsSpeaking) = false := by
      revert hd
      cases hcond : (if st.pushToTalkEnabled then st.pushToTalkActive else st.userIsSpeaking) <;> simp
    refine ⟨?_, fun hcontra => absurd hcontra hd⟩
    rw [(handleDataAvailable_buffer st b hd').2]
    split
    · rw [List.length_drop, List.length_append]
      simp
      omega
    · rename_i hc
      rw [List.length_append] at hc ⊢
      simp at hc ⊢
      omega

/-- Witness for C3 at a full buffer and a flushing step. -/
theorem C3_buffer_invariant_witness :
    (handleDataAvailable ⟨false, false, false,
        ["0", "1", "2", "3", "4", "5", "6", "7", "8", "9"]⟩ "x").1.audioBuffer.length ≤ 10
    ∧ (handleDataAvailable ⟨false, false, true, ["a", "b"]⟩ "c").1.audioBuffer = [] := by
  constructor
  · exact (C3_buffer_invariant ⟨false, false, false,
      ["0", "1", "2", "3", "4", "5", "6", "7", "8", "9"]⟩ "x" (by decide)).1
  · exact ((C3_buffer_invariant ⟨false, false, true, ["a", "b"]⟩ "c" (by decide)).2 rfl).1

/-- Claim C5: the interruption routine sends exactly one
trigger.response.audio.interrupted message, with the millisecond offset
equal to the seconds offset times 1000 repeated in the interruption
context, precisely when the player returned an offset answer and a
non-empty turn id is tracked; otherwise it sends nothing and emits one
console.warn carrying the two availability booleans, and it never
invokes the error callback. -/
theorem C5_interrupt_offsets (od : Option OffsetData) (ctid : Option String) :
    (∀ d t, od = some d → ctid = some t → t ≠ "" →
      clientInterruptAssistantReplay od ctid
        = [.wsSendCall (.audioInterrupted (d.currentTime * 1000) t (d.currentTime * 1000))])
    ∧ ((od.isSome && jsTruthy ctid) = false →
      clientInterruptAssistantReplay od ctid
        = [.warnMissing od.isSome (jsTruthy ctid)]
      ∧ ∀ msg, Action.wsSendCall msg ∉ clientInterruptAssistantReplay od ctid)
    ∧ Action.onError ∉ clientInterruptAssistantReplay od ctid := by
  match od, ctid with
  | some d, some t =>
      by_cases ht : t = "" <;>
        simp [clientInterruptAssistantReplay, ht, jsTruthy]
  | some d, none =>
      simp [clientInterruptAssistantReplay, jsTruthy]
  | none, some t =>
      simp [clientInterruptAssistantReplay, jsTruthy]
  | none, none =>
      simp [clientInterruptAssistantReplay, jsTruthy]

/-- Witness for C5: a two-second offset with a tracked turn id yields
the single interrupted message at 2000 milliseconds, and a missing
offset answer yields only the warn. -/
theorem C5_interrupt_offsets_witness :
    clientInterruptAssistantReplay (some ⟨none, 0, 2⟩) (some "turn-1")
      = [.wsSendCall (.audioInterrupted ((2 : ℚ) * 1000) "turn-1" ((2 : ℚ) * 1000))]
    ∧ clientInterruptAssistantReplay none (some "turn-1")
      = [.warnMissing false true] := by
  constructor
  · exact (C5_interrupt_offsets (some ⟨none, 0, 2⟩) (some "turn-1")).1
      ⟨none, 0, 2⟩ "turn-1" rfl rfl (by decide)
  · exact ((C5_interrupt_offsets none (some "turn-1")).2.1 rfl).1

/-- A run of quiet frames from a speaking state only counts silence while
the counter stays below the threshold: no event is emitted and the
counter advances by the number of frames. -/
theorem ampVadRun_quiet (qs : List ℚ) (j : ℕ)
    (hq : ∀ a ∈ qs, a ≤ AMPLITUDE_THRESHOLD)
    (hj : j + qs.length < SILENCE_FRAMES_THRESHOLD) :
    ampVadRun ⟨true, j, true⟩ qs = (⟨true, j + qs.length, true⟩, []) := by
  induction qs generalizing j with
  | nil => simp [ampVadRun]
  | cons a t ih =>
      have ha : ¬ AMPLITUDE_THRESHOLD < a := not_lt.mpr (hq a (by simp))
      have hlt : ¬ ((true : Bool) ∧ SILENCE_FRAMES_THRESHOLD ≤ j + 1) := by
        rintro ⟨-, hle⟩
        rw [SILENCE_FRAMES_THRESHOLD] at hle hj
        simp [List.length_cons] at hj
        omega
      have hstep : ampVadStep ⟨true, j, true⟩ a = (⟨true, j + 1, true⟩, []) := by
        unfold ampVadStep
        rw [if_neg ha, if_neg hlt]
      have hrest : ampVadRun ⟨true, j + 1, true⟩ t = (⟨true, (j + 1) + t.length, true⟩, []) := by
        refine ih (j + 1) (fun x hx => hq x (by simp [hx])) ?_
        simp [List.length_cons] at hj
        omega
      have harith : (j + 1) + t.length = j + (a :: t).length := by
        simp [List.length_cons]
        omega
      rw [ampVadRun, hstep, hrest, harith]
      simp

/-- The thirtieth consecutive quiet frame from a speaking state declares
the speech end: the speaking-change callback fires with false and the
vad_end message send is issued. -/
theorem ampVadStep_thirty (a : ℚ) (ha : a ≤ AMPLITUDE_THRESHOLD) :
    ampVadStep ⟨true, 29, true⟩ a
      = (⟨false, 30, false⟩,
         [.onUserIsSpeakingChange false, .wsSendCall (.vadEvents "vad_end")]) := by
  unfold ampVadStep
  rw [if_neg (not_lt.mpr ha), if_pos ⟨rfl, by rw [SILENCE_FRAMES_THRESHOLD]⟩]

/-- Runs of the fallback detector compose over concatenation. -/
theorem ampVadRun_append (s : AmpState) (l1 l2 : List ℚ) :
    ampVadRun s (l1 ++ l2)
      = ((ampVadRun (ampVadRun s l1).1 l2).1,
         (ampVadRun s l1).2 ++ (ampVadRun (ampVadRun s l1).1 l2).2) := by
  induction l1 generalizing s with
  | nil => simp [ampVadRun]
  | cons a t ih => simp [ampVadRun, ih]

/-- Claim C6: in automatic mode the client schedules the 2000 millisecond
model-load timeout (and none under push-to-talk); the timeout body emits
the vad_model_failed protocol message, resets userIsSpeaking, installs
the amplitude fallback and never touches the error callback; the
fallback declares speech start on a frame above the threshold (emitting
vad_start and setting userIsSpeaking) and declares speech end, emitting
vad_end and clearing userIsSpeaking, only once thirty consecutive
below-threshold frames have elapsed, with no event at all on any shorter
quiet run. -/
theorem C6_vad_model_fallback (qs : List ℚ)
    (hq : ∀ a ∈ qs, a ≤ AMPLITUDE_THRESHOLD) (h30 : qs.length = 30) :
    initializeVADTimeout false = some 2000
    ∧ initializeVADTimeout true = none
    ∧ vadTimeoutHandler.1 = false
    ∧ Action.wsSendCall (.vadEvents "vad_model_failed") ∈ vadTimeoutHandler.2
    ∧ Action.onError ∉ vadTimeoutHandler.2
    ∧ (∀ s a, AMPLITUDE_THRESHOLD < a → s.isSpeakingByAmplitude = false →
        (ampVadStep s a).1.userIsSpeaking = true
        ∧ (ampVadStep s a).2
            = [.onUserIsSpeakingChange true, .wsSendCall (.vadEvents "vad_start")])
    ∧ (∀ s a, Action.onError ∉ (ampVadStep s a).2)
    ∧ (∀ k, k < 30 → (ampVadRun ⟨true, 0, true⟩ (qs.take k)).2 = [])
    ∧ (ampVadRun ⟨true, 0, true⟩ qs).1.userIsSpeaking = false
    ∧ Action.wsSendCall (.vadEvents "vad_end") ∈ (ampVadRun ⟨true, 0, true⟩ qs).2 := by
  have hsplit : qs = qs.take 29 ++ qs.drop 29 := (List.take_append_drop 29 qs).symm
  have hget : 29 < qs.length := by omega
  have hdrop : qs.drop 29 = qs[29] :: qs.drop 30 := by
    rw [List.drop_eq_getElem_cons hget]
  have hdrop30 : qs.drop 30 = [] := List.drop_eq_nil_of_le (by omega)
  have htake : ampVadRun ⟨true, 0, true⟩ (qs.take 29) = (⟨true, 29, true⟩, []) := by
    have h := ampVadRun_quiet (qs.take 29) 0
      (fun x hx => hq x (List.mem_of_mem_take hx))
      (by rw [SILENCE_FRAMES_THRESHOLD]; simp [List.length_take, h30])
    simpa [List.length_take, h30] using h
  have hlast : ampVadStep ⟨true, 29, true⟩ qs[29]
      = (⟨false, 30, false⟩,
         [.onUserIsSpeakingChange false, .wsSendCall (.vadEvents "vad_end")]) :=
    ampVadStep_thirty _ (hq _ (List.getElem_mem hget))
  have hrun : ampVadRun ⟨true, 0, true⟩ qs
      = (⟨false, 30, false⟩,
         [.onUserIsSpeakingChange false, .wsSendCall (.vadEvents "vad_end")]) := by
    rw [hsplit]
    rw [ampVadRun_append, htake]
    rw [hdrop, hdrop30]
    rw [ampVadRun, hlast]
    simp [ampVadRun]
  refine ⟨rfl, rfl, rfl, by simp [vadTimeoutHandler], by simp [vadTimeoutHandler], ?_, ?_, ?_, ?_, ?_⟩
  · intro s a hloud hnot
    unfold ampVadStep
    rw [if_pos hloud, hnot]
    simp
  · intro s a
    unfold ampVadStep
    split
    · split <;> simp
    · dsimp only
      split <;> simp
  · intro k hk
    have := ampVadRun_quiet (qs.take k) 0
      (fun x hx => hq x (List.mem_of_mem_take hx))
      (by rw [SILENCE_FRAMES_THRESHOLD]; simp [List.length_take]; omega)
    simp [this]
  · rw [hrun]
  · rw [hrun]
    simp

/-- Witness for C6 at thirty silent frames. -/
theorem C6_vad_model_fallback_witness :
    (ampVadRun ⟨true, 0, true⟩ (List.replicate 30 0)).1.userIsSpeaking = false
    ∧ Action.wsSendCall (.vadEvents "vad_end")
        ∈ (ampVadRun ⟨true, 0, true⟩ (List.replicate 30 0)).2 := by
  have h := C6_vad_model_fallback (List.replicate 30 0)
    (by
      intro a ha
      rw [List.eq_of_mem_replicate ha, AMPLITUDE_THRESHOLD]
      norm_num)
    (by simp)
  exact ⟨h.2.2.2.2.2.2.2.2.1, h.2.2.2.2.2.2.2.2.2⟩

/-- countClientReady distributes over concatenation. -/
theorem countClientReady_append (l1 l2 : List Action) :
    countClientReady (l1 ++ l2) = countClientReady l1 + countClientReady l2 := by
  simp [countClientReady, List.countP_append]

/-- Over any event sequence, the number of client.ready sends equals the
flip of the sent flag: the flag is the exact send counter. -/
theorem readyRun_count (evs : List ReadyEvent) (st : ReadyState) :
    countClientReady (readyRun st evs).2 + st.readySent.toNat
      = (readyRun st evs).1.readySent.toNat := by
  induction evs generalizing st with
  | nil => simp [readyRun, countClientReady]
  | cons e rest ih =>
      cases e with
      | recorderReady =>
          have h := ih { st with recorderStarted := true }
          simp only [readyRun, readyStep]
          rw [countClientReady_append]
          simpa [countClientReady] using h
      | wsOpened =>
          have h := ih { st with wsOpen := true }
          simp only [readyRun, readyStep]
          rw [countClientReady_append]
          simpa [countClientReady] using h
      | callSendReady =>
          by_cases hg : st.recorderStarted = true ∧ st.wsOpen = true ∧ st.readySent = false
          · have h1 : sendReadyIfNeeded st
                = ({ st with readySent := true }, [.wsSendCall .clientReady]) := by
              rw [sendReadyIfNeeded, if_pos hg]
            have h := ih { st with readySent := true }
            simp only [readyRun, readyStep, h1]
            rw [countClientReady_append]
            simp only [countClientReady, List.countP_cons, List.countP_nil] at h ⊢
            simp [hg.2.2] at h ⊢
            omega
          · have h1 : sendReadyIfNeeded st = (st, []) := by
              rw [sendReadyIfNeeded, if_neg hg]
            have h := ih st
            simp only [readyRun, readyStep, h1]
            rw [countClientReady_append]
            simpa [countClientReady] using h

/-- Runs of the ready guard compose over concatenation. -/
theorem readyRun_append (st : ReadyState) (l1 l2 : List ReadyEvent) :
    readyRun st (l1 ++ l2)
      = ((readyRun (readyRun st l1).1 l2).1,
         (readyRun st l1).2 ++ (readyRun (readyRun st l1).1 l2).2) := by
  induction l1 generalizing st with
  | nil => simp [readyRun]
  | cons e rest ih => simp [readyRun, ih]

/-- Claim C8: the sent-flag guard makes sendReadyIfNeeded a no-op once
the notice went out; over every event interleaving from a fresh
connection at most one client.ready is sent; and an invocation made
once both preconditions hold brings the total for the connection to
exactly one, whatever the order in which they completed. -/
theorem C8_client_ready_once (evs1 : List ReadyEvent)
    (h1 : (readyRun initReady evs1).1.recorderStarted = true)
    (h2 : (readyRun initReady evs1).1.wsOpen = true) :
    (∀ st : ReadyState, st.readySent = true → sendReadyIfNeeded st = (st, []))
    ∧ (∀ evs : List ReadyEvent, countClientReady (readyRun initReady evs).2 ≤ 1)
    ∧ countClientReady (readyRun initReady (evs1 ++ [ReadyEvent.callSendReady])).2 = 1 := by
  refine ⟨?_, ?_, ?_⟩
  · intro st hsent
    rw [sendReadyIfNeeded, if_neg]
    rintro ⟨-, -, hnot⟩
    rw [hsent] at hnot
    exact Bool.noConfusion hnot
  · intro evs
    have h := readyRun_count evs initReady
    have hb : ((readyRun initReady evs).1.readySent).toNat ≤ 1 := by
      cases (readyRun initReady evs).1.readySent <;> simp
    have h0 : initReady.readySent.toNat = 0 := rfl
    omega
  · have hfin : (readyRun initReady (evs1 ++ [ReadyEvent.callSendReady])).1.readySent = true := by
      rw [readyRun_append]
      simp only [readyRun, readyStep]
      rw [sendReadyIfNeeded]
      by_cases hs : (readyRun initReady evs1).1.readySent = false
      · rw [if_pos ⟨h1, h2, hs⟩]
      · rw [if_neg]
        · simp only [readyRun]
          revert hs
          cases (readyRun initReady evs1).1.readySent <;> simp
        · rintro ⟨-, -, hnot⟩
          exact hs hnot
    have h := readyRun_count (evs1 ++ [ReadyEvent.callSendReady]) initReady
    rw [hfin] at h
    have h0 : initReady.readySent.toNat = 0 := rfl
    have h1' : (true : Bool).toNat = 1 := rfl
    omega

/-- Witness for C8: the recorder finishes first, the socket opens second,
and the invocation after both sends exactly one notice. -/
theorem C8_client_ready_once_witness :
    countClientReady (readyRun initReady
      ([ReadyEvent.recorderReady, ReadyEvent.wsOpened] ++ [ReadyEvent.callSendReady])).2 = 1 := by
  exact (C8_client_ready_once [ReadyEvent.recorderReady, ReadyEvent.wsOpened]
    (by decide) (by decide)).2.2

/-- Counterexample to claim C9 as stated: from a connected client (a
non-null socket), two successive disconnect calls fire the disconnect
callback once each, because the socket reference is never cleared, so
the total is two rather than exactly one. -/
theorem C9_counterexample :
    countOnDisconnect ((disconnectClient ⟨true, true, some "turn-1"⟩).2
        ++ (disconnectClient (disconnectClient ⟨true, true, some "turn-1"⟩).1).2) ≠ 1 := by
  decide

/-- Claim C9 as amended: calling disconnect twice in succession on a
client whose socket reference is non-null produces exactly two
disconnect callback invocations, one per call (the model is a total
function, so no exception is raised); with a null socket reference the
callback never fires. -/
theorem C9_double_disconnect (st : DiscState) (h : st.ws = true) :
    countOnDisconnect ((disconnectClient st).2
        ++ (disconnectClient (disconnectClient st).1).2) = 2
    ∧ (∀ st2 : DiscState, st2.ws = false → countOnDisconnect (disconnectClient st2).2 = 0) := by
  constructor
  · obtain ⟨v, w, tid⟩ := st
    simp only at h
    subst h
    cases v <;>
      simp [disconnectClient, countOnDisconnect, List.countP_append, List.countP_cons]
  · intro st2 h2
    obtain ⟨v, w, tid⟩ := st2
    simp only at h2
    subst h2
    cases v <;>
      simp [disconnectClient, countOnDisconnect, List.countP_cons]

/-- Witness for C9 as amended, at a fully connected client. -/
theorem C9_double_disconnect_witness :
    countOnDisconnect ((disconnectClient ⟨true, true, some "turn-1"⟩).2
        ++ (disconnectClient (disconnectClient ⟨true, true, some "turn-1"⟩).1).2) = 2 := by
  exact (C9_double_disconnect ⟨true, true, some "turn-1"⟩ rfl).1

end LayercodeClient
